import Mathlib

/-! Shallow embedding of the Imagery Gateway service (src/main.py): a FastAPI app
with two routes, `POST /get-image` and `GET /download-image`, proxying the
Sentinel Hub imagery provider.  Machine reals never arrive in arithmetic here
(bbox floats are pass-through data), so they are modelled by `Rat`; the file
system is a finite map from path to bytes; the external provider is a
parameter of type `SentinelHubRequestSpec → Except String ImageData`.
-/

/-- Raw bytes of a file or HTTP body. -/
abbrev Bytes := List Nat

/-- The raster array the provider returns (`sentinel_request.get_data()[0]`),
a numpy array handed to `Image.fromarray`; modelled by its raw pixel data. -/
abbrev ImageData := List Nat

/-- Deterministic model of PIL PNG serialization.  In `get_image` the same
image object is serialized twice with identical parameters: once by
`image.save('last_image.png')` (format PNG inferred from the extension) and
once by `image.save(buffer, format="PNG")`; PIL's PNG encoder is a
deterministic function of the image, so both produce the same byte string,
modelled as this single function.  The prefix is the fixed PNG signature. -/
def encodePNG (img : ImageData) : Bytes :=
  137 :: 80 :: 78 :: 71 :: img

/-- The `sentinelhub.BBox` value for CRS.WGS84 built from four floats
(min-lon, min-lat, max-lon, max-lat). -/
structure BBoxWGS84 where
  min_x : Rat
  min_y : Rat
  max_x : Rat
  max_y : Rat
deriving DecidableEq

/-- Model of `BBox(bbox=..., crs=CRS.WGS84)` on a flat list of floats: the sentinelhub
constructor accepts exactly four entries and raises (TypeError/ValueError)
for any other arity. -/
def mkBBox (bbox : List Rat) : Except String BBoxWGS84 :=
  match bbox with
  | [a, b, c, d] => Except.ok ⟨a, b, c, d⟩
  | _ => Except.error "Expected a valid list or tuple representation of a bbox"

/-- The `evalscript_true_color` string constant of src/main.py. -/
def evalscript_true_color : String :=
  "\n    //VERSION=3\n    function setup() \x7b\n        return \x7b\n            input: [\"B04\", \"B03\", \"B02\"], // Красный, Зелёный, Синий каналы\n            output: \x7b bands: 3 \x7d\n        \x7d;\n    \x7d\n\n    function evaluatePixel(sample) \x7b\n        return [2.5 * sample.B04, 2.5 * sample.B03, 2.5 * sample.B02];\n    \x7d\n"

/-- The `evalscript_ndvi` string constant of src/main.py. -/
def evalscript_ndvi : String :=
  "\n    //VERSION=3\n    // Этот скрипт визуализирует NDVI (Normalized Difference Vegetation Index)\n    \n    function setup() \x7b\n        return \x7b\n            input: [\"B04\", \"B08\"], // Красный и ближний инфракрасный каналы\n            output: \x7b bands: 3 \x7d   // Выходное изображение RGB\n        \x7d;\n    \x7d\n\n    // Функция для применения цветовой карты к значению NDVI\n    const ramp = [\n        [ -0.2, 0xc1a48e ], // почва/пустыня - коричневый\n        [ 0.0, 0xf0e0b2 ],  // очень низкая растительность - бежевый\n        [ 0.2, 0x336600 ],  // средняя растительность - тёмно-зелёный\n        [ 0.6, 0x00ff00 ],  // высокая растительность - ярко-зелёный\n        [ 1.0, 0x00ff00 ]   // очень высокая растительность - ярко-зелёный\n    ];\n\n    const visualizer = new ColorRampVisualizer(ramp);\n\n    function evaluatePixel(sample) \x7b\n        // Формула NDVI\n        let ndvi = (sample.B08 - sample.B04) / (sample.B08 + sample.B04);\n        \n        // Возвращаем цвет в зависимости от значения NDVI\n        return visualizer.process(ndvi);\n    \x7d\n"

/-- The process-wide constant dict `EVALSCRIPTS` mapping layer type to
rendering script. -/
def EVALSCRIPTS : List (String × String) :=
  [("true_color", evalscript_true_color), ("ndvi", evalscript_ndvi)]

/-- The request object built by `SentinelHubRequest(...)` inside `get_image`:
evalscript, one input datum (data collection and time interval), one response
(format), bbox, output size, credentials config elided (fixed per process). -/
structure SentinelHubRequestSpec where
  evalscript : String
  data_collection : String
  time_interval : String × String
  response_format : String
  bbox : BBoxWGS84
  size : Nat × Nat
deriving DecidableEq

/-- The two values admitted by `Literal["true_color", "ndvi"]`. -/
inductive LayerType where
  | true_color
  | ndvi
deriving DecidableEq

/-- The JSON string of a `LayerType` (the value as it appears in the body). -/
def LayerType.toString : LayerType → String
  | .true_color => "true_color"
  | .ndvi => "ndvi"

/-- The pydantic model `BboxRequest` after successful validation:
`bbox: List[float]` (any length) and `layer_type` one of the two literals. -/
structure BboxRequest where
  bbox : List Rat
  layer_type : LayerType

/-- A `POST /get-image` body before validation.  Each bbox entry is recorded
by its pydantic float-coercion result: `some q` for an entry that coerces to
the float `q` (numbers and numeric strings), `none` for an entry failing
float coercion (e.g. the string "abc").  `layer_type` is the raw string. -/
structure RawRequest where
  bbox : List (Option Rat)
  layer_type : String

/-- Validation of the `Literal["true_color", "ndvi"]` field. -/
def parseLayerType (s : String) : Option LayerType :=
  if s = "true_color" then some LayerType.true_color
  else if s = "ndvi" then some LayerType.ndvi
  else none

/-- pydantic coercion of `bbox: List[float]`: every entry must coerce to a
float, otherwise the whole field fails validation. -/
def coerceFloats : List (Option Rat) → Option (List Rat)
  | [] => some []
  | none :: _ => none
  | some q :: rest =>
    match coerceFloats rest with
    | none => none
    | some l => some (q :: l)

/-- FastAPI/pydantic validation of the request body against `BboxRequest`:
every bbox entry must coerce to float and `layer_type` must be one of the two
literals; otherwise FastAPI rejects the request before the handler runs. -/
def parseBboxRequest (raw : RawRequest) : Option BboxRequest :=
  match coerceFloats raw.bbox with
  | none => none
  | some bbox =>
    match parseLayerType raw.layer_type with
    | none => none
    | some lt => some ⟨bbox, lt⟩

/-- Process state visible to the two handlers: the files of the working
directory (the only one ever touched is `last_image.png`). -/
structure ServerState where
  files : List (String × Bytes)
deriving DecidableEq

/-- Read the file at a path (None when absent). -/
def readFile (st : ServerState) (p : String) : Option Bytes :=
  (st.files.find? (fun kv => kv.1 == p)).map (fun kv => kv.2)

/-- Create or overwrite the file at a path. -/
def writeFile (st : ServerState) (p : String) (b : Bytes) : ServerState :=
  ⟨(p, b) :: st.files.filter (fun kv => !(kv.1 == p))⟩

/-- The external provider: `sentinel_request.get_data()[0]`.  Success yields
the raster; failure (network, provider, serialization) yields the exception
message `str(e)`. -/
abbrev Provider := SentinelHubRequestSpec → Except String ImageData

/-- Outcome of `POST /get-image`: a 200 `StreamingResponse` with PNG body, or
an `HTTPException`-style error with a status code and detail string. -/
inductive GetImageResponse where
  | streaming (body : Bytes) (media_type : String)
  | httpError (status : Nat) (detail : String)
deriving DecidableEq

/-- HTTP status of a `GetImageResponse`. -/
def GetImageResponse.status : GetImageResponse → Nat
  | .streaming _ _ => 200
  | .httpError s _ => s

/-- Stringification `str(HTTPException(status_code, detail))` of a raised starlette HTTPException. -/
def httpExceptionStr (status : Nat) (detail : String) : String :=
  toString status ++ ": " ++ detail

/-- Lines 119-137 of `get_image`: build the sentinelhub `BBox`, select the
script (`EVALSCRIPTS.get`, with `raise HTTPException(400, ...)` when the
lookup is falsy — None or empty string), and construct the provider request
with the fixed time interval, collection, format and size.  Any raise is an
`Except.error` carrying the stringified exception. -/
def plannedProviderRequest (req : BboxRequest) : Except String SentinelHubRequestSpec :=
  match mkBBox req.bbox with
  | Except.error e => Except.error e
  | Except.ok sentinel_bbox =>
  match EVALSCRIPTS.lookup req.layer_type.toString with
  | none => Except.error (httpExceptionStr 400 "Неверный тип слоя")
  | some selected_script =>
    if selected_script = "" then
      Except.error (httpExceptionStr 400 "Неверный тип слоя")
    else
      Except.ok
        { evalscript := selected_script
          data_collection := "SENTINEL2_L1C"
          time_interval := ("2025-04-01", "2025-09-30")
          response_format := "PNG"
          bbox := sentinel_bbox
          size := (512, 512) }

/-- The body of the `try` block of `get_image` (lines 118-149): plan and issue
the provider request, decode the raster (`Image.fromarray`), save it to
`last_image.png`, serialize it again into the in-memory buffer, and return
the `StreamingResponse`.  `Except.error e` is a raised exception with
`str(e) = e`. -/
def getImageTry (provider : Provider) (st : ServerState) (req : BboxRequest) :
    Except String (ServerState × GetImageResponse) :=
  match plannedProviderRequest req with
  | Except.error e => Except.error e
  | Except.ok sentinel_request =>
  match provider sentinel_request with
  | Except.error e => Except.error e
  | Except.ok image_data =>
    let image := image_data
    let st := writeFile st "last_image.png" (encodePNG image)
    let buffer := encodePNG image
    Except.ok (st, GetImageResponse.streaming buffer "image/png")

/-- The `get_image` handler (lines 116-153): the whole `try` body, with the
catch-all `except Exception as e: raise HTTPException(status_code=500,
detail=str(e))` leaving the state untouched. -/
def get_image (provider : Provider) (st : ServerState) (req : BboxRequest) :
    ServerState × GetImageResponse :=
  match getImageTry provider st req with
  | Except.ok result => result
  | Except.error e => (st, GetImageResponse.httpError 500 e)

/-- The full `POST /get-image` route: FastAPI validates the body against
`BboxRequest` and answers 422 Unprocessable Entity itself when validation
fails; only then does the handler body run. -/
def post_get_image (provider : Provider) (st : ServerState) (raw : RawRequest) :
    ServerState × GetImageResponse :=
  match parseBboxRequest raw with
  | none => (st, GetImageResponse.httpError 422 "request validation error")
  | some req => get_image provider st req

/-- Outcome of `GET /download-image`: a 200 `FileResponse` attachment, or the
server error produced when the `FileResponse` is sent for an absent path
(starlette raises RuntimeError at send time, surfaced as a 500). -/
inductive DownloadResponse where
  | fileAttachment (path : String) (content : Bytes) (filename : String) (media_type : String)
  | serverError (detail : String)
deriving DecidableEq

/-- HTTP status of a `DownloadResponse`. -/
def DownloadResponse.status : DownloadResponse → Nat
  | .fileAttachment _ _ _ _ => 200
  | .serverError _ => 500

/-- The `download_image` handler (lines 155-158): return
`FileResponse(path="last_image.png", filename="sentinel_snapshot.png",
media_type='image/png')`; when the file is absent the response fails at send
time with a RuntimeError, observed by the client as a server error. -/
def download_image (st : ServerState) : ServerState × DownloadResponse :=
  let file_path := "last_image.png"
  match readFile st file_path with
  | some content =>
      (st, DownloadResponse.fileAttachment file_path content "sentinel_snapshot.png" "image/png")
  | none =>
      (st, DownloadResponse.serverError ("File at path " ++ file_path ++ " does not exist."))

/-- The process environment at startup. -/
abbrev Env := List (String × String)

/-- Model of `os.getenv(name)`. -/
def getenv (env : Env) (name : String) : Option String :=
  env.lookup name

/-- Python truthiness of `os.getenv`'s result: `None` and the empty string
are falsy. -/
def strTruthy : Option String → Bool
  | none => false
  | some s => !(s == "")

/-- The `SHConfig` object after lines 55-57 set both credentials. -/
structure SHConfigModel where
  sh_client_id : String
  sh_client_secret : String
deriving DecidableEq

/-- Module-load startup (lines 49-57): read `ClientID` and `ClientSecret`
from the environment; `if not SH_CLIENT_ID or not SH_CLIENT_SECRET` raise
`ValueError` (the process refuses to start); otherwise build the config
holding both credentials for the process lifetime. -/
def startup (env : Env) : Except String SHConfigModel :=
  let SH_CLIENT_ID := getenv env "ClientID"
  let SH_CLIENT_SECRET := getenv env "ClientSecret"
  if !(strTruthy SH_CLIENT_ID) || !(strTruthy SH_CLIENT_SECRET) then
    Except.error "Пожалуйста, укажите SH_CLIENT_ID и SH_CLIENT_SECRET."
  else
    Except.ok { sh_client_id := SH_CLIENT_ID.getD "", sh_client_secret := SH_CLIENT_SECRET.getD "" }

/-! ## Helper lemmas -/

theorem readFile_writeFile (st : ServerState) (p : String) (b : Bytes) :
    readFile (writeFile st p b) p = some b := by
  unfold readFile writeFile
  simp [List.find?]

theorem coerceFloats_none_of_mem (l : List (Option Rat)) (h : none ∈ l) :
    coerceFloats l = none := by
  induction l with
  | nil => cases h
  | cons x rest ih =>
    cases x with
    | none => rfl
    | some q =>
      have hr : none ∈ rest := by
        cases h with
        | tail _ hmem => exact hmem
      unfold coerceFloats
      rw [ih hr]

theorem coerceFloats_length (l : List (Option Rat)) (bbox : List Rat)
    (h : coerceFloats l = some bbox) : bbox.length = l.length := by
  induction l generalizing bbox with
  | nil => cases h; rfl
  | cons x rest ih =>
    cases x with
    | none => exact Option.noConfusion h
    | some q =>
      unfold coerceFloats at h
      cases hr : coerceFloats rest with
      | none => rw [hr] at h; cases h
      | some l2 => rw [hr] at h; cases h; simp [ih l2 hr]

theorem mkBBox_of_length_ne_four (l : List Rat) (h : l.length ≠ 4) :
    mkBBox l = Except.error "Expected a valid list or tuple representation of a bbox" := by
  cases l with
  | nil => rfl
  | cons a t =>
    cases t with
    | nil => rfl
    | cons b t =>
      cases t with
      | nil => rfl
      | cons c t =>
        cases t with
        | nil => rfl
        | cons d t =>
          cases t with
          | nil => exact absurd rfl h
          | cons e t => rfl

theorem getImageTry_of_planned_error (provider : Provider) (st : ServerState)
    (req : BboxRequest) (e : String) (h : plannedProviderRequest req = Except.error e) :
    getImageTry provider st req = Except.error e := by
  unfold getImageTry
  rw [h]

theorem handler_error_500 (provider : Provider) (st : ServerState) (raw : RawRequest)
    (req : BboxRequest) (e : String) (hparse : parseBboxRequest raw = some req)
    (hfail : getImageTry provider st req = Except.error e) :
    post_get_image provider st raw = (st, GetImageResponse.httpError 500 e) := by
  unfold post_get_image
  rw [hparse]
  show get_image provider st req = _
  unfold get_image
  rw [hfail]

theorem getImageTry_ok (provider : Provider) (st : ServerState) (req : BboxRequest)
    (out : ServerState × GetImageResponse) (h : getImageTry provider st req = Except.ok out) :
    ∃ shreq img, plannedProviderRequest req = Except.ok shreq ∧
      provider shreq = Except.ok img ∧
      out = (writeFile st "last_image.png" (encodePNG img),
             GetImageResponse.streaming (encodePNG img) "image/png") := by
  unfold getImageTry at h
  split at h
  next e heq => exact Except.noConfusion h
  next sentinel_request heq =>
    split at h
    next e2 heq2 => exact Except.noConfusion h
    next image_data heq2 =>
      injection h with h
      exact ⟨sentinel_request, image_data, heq, heq2, h.symm⟩

theorem post_get_image_ok (provider : Provider) (st st' : ServerState) (raw : RawRequest)
    (body : Bytes) (mt : String)
    (h : post_get_image provider st raw = (st', GetImageResponse.streaming body mt)) :
    ∃ req shreq img, parseBboxRequest raw = some req ∧
      plannedProviderRequest req = Except.ok shreq ∧
      provider shreq = Except.ok img ∧
      body = encodePNG img ∧ mt = "image/png" ∧
      st' = writeFile st "last_image.png" body := by
  unfold post_get_image at h
  split at h
  next heq => simp at h
  next req heq =>
    unfold get_image at h
    split at h
    next result ht =>
      obtain ⟨shreq, img, hplan, hprov, hout⟩ := getImageTry_ok provider st req result ht
      subst hout
      injection h with h1 h2
      injection h2 with hb hm
      refine ⟨req, shreq, img, heq, hplan, hprov, hb.symm, hm.symm, ?_⟩
      rw [← hb]
      exact h1.symm
    next e ht => simp at h

/-! ## Claims -/

/-- C1 (counterexample): a `POST /get-image` body whose `layer_type` is the
unknown string "foo" does NOT get status 400: `Literal["true_color", "ndvi"]`
makes FastAPI reject the body at validation time with 422, before the
handler's own 400 branch can ever run. -/
theorem unknown_layer_type_not_400 :
    ¬ ((post_get_image (fun _ => Except.error "network error") ⟨[]⟩
          ⟨[some 0, some 0, some 1, some 1], "foo"⟩).2.status = 400) := by
  decide

/-- C1 (amended): for every `POST /get-image` request whose `layer_type` is
not "true_color" or "ndvi", the response is the FastAPI request-validation
error with HTTP status 422, regardless of provider, state and bbox. -/
theorem unknown_layer_type_422 (provider : Provider) (st : ServerState) (raw : RawRequest)
    (h1 : raw.layer_type ≠ "true_color") (h2 : raw.layer_type ≠ "ndvi") :
    (post_get_image provider st raw).2 =
      GetImageResponse.httpError 422 "request validation error" := by
  have hlt : parseLayerType raw.layer_type = none := by
    unfold parseLayerType
    rw [if_neg h1, if_neg h2]
  have hp : parseBboxRequest raw = none := by
    unfold parseBboxRequest
    split
    · rfl
    · rw [hlt]
  unfold post_get_image
  rw [hp]

theorem unknown_layer_type_422_witness :
    (post_get_image (fun _ => Except.ok []) ⟨[]⟩ ⟨[], "tru"⟩).2 =
      GetImageResponse.httpError 422 "request validation error" :=
  unknown_layer_type_422 (fun _ => Except.ok []) ⟨[]⟩ ⟨[], "tru"⟩ (by decide) (by decide)

/-- C2 (code evaluated at the failing input): `GET /download-image` before
any render (no `last_image.png` file) does not produce a not-found error:
`FileResponse` on the absent path fails at send time and the client observes
a 500 server error, never 404. -/
theorem download_image_no_render_is_500_not_404 :
    (download_image ⟨[]⟩).2 =
      DownloadResponse.serverError "File at path last_image.png does not exist." ∧
    (download_image ⟨[]⟩).2.status = 500 ∧ ¬ ((download_image ⟨[]⟩).2.status = 404) := by
  exact ⟨rfl, rfl, by decide⟩

/-- C3: after any successful `POST /get-image` (status 200 streaming the PNG
body), an immediately following `GET /download-image` serves byte-for-byte
the same PNG bytes as the attachment, leaving the state unchanged. -/
theorem download_after_get_image (provider : Provider) (st st' : ServerState)
    (raw : RawRequest) (body : Bytes) (mt : String)
    (h : post_get_image provider st raw = (st', GetImageResponse.streaming body mt)) :
    download_image st' =
      (st', DownloadResponse.fileAttachment "last_image.png" body
              "sentinel_snapshot.png" "image/png") := by
  obtain ⟨req, shreq, img, hparse, hplan, hprov, hbody, hmt, hst⟩ :=
    post_get_image_ok provider st st' raw body mt h
  unfold download_image
  rw [hst]
  simp only [readFile_writeFile]

theorem download_after_get_image_witness :
    download_image ⟨[("last_image.png", encodePNG [5, 6])]⟩ =
      (⟨[("last_image.png", encodePNG [5, 6])]⟩,
        DownloadResponse.fileAttachment "last_image.png" (encodePNG [5, 6])
          "sentinel_snapshot.png" "image/png") :=
  download_after_get_image (fun _ => Except.ok [5, 6]) ⟨[]⟩
    ⟨[("last_image.png", encodePNG [5, 6])]⟩
    ⟨[some 0, some 0, some 1, some 1], "true_color"⟩ (encodePNG [5, 6]) "image/png" rfl

/-- C4: every successful `POST /get-image` overwrites the persisted
`last_image.png` in the working directory with the newly rendered result (the
PNG serialization of the raster the provider returned for this request), and
the body returned to the caller is exactly those bytes. -/
theorem get_image_persists_last_image (provider : Provider) (st st' : ServerState)
    (raw : RawRequest) (body : Bytes) (mt : String)
    (h : post_get_image provider st raw = (st', GetImageResponse.streaming body mt)) :
    readFile st' "last_image.png" = some body ∧
    ∃ req shreq img, parseBboxRequest raw = some req ∧
      plannedProviderRequest req = Except.ok shreq ∧
      provider shreq = Except.ok img ∧ body = encodePNG img := by
  obtain ⟨req, shreq, img, hparse, hplan, hprov, hbody, hmt, hst⟩ :=
    post_get_image_ok provider st st' raw body mt h
  refine ⟨?_, req, shreq, img, hparse, hplan, hprov, hbody⟩
  rw [hst]
  exact readFile_writeFile st _ body

theorem get_image_persists_last_image_witness :
    readFile ⟨[("last_image.png", encodePNG [9])]⟩ "last_image.png" = some (encodePNG [9]) ∧
    ∃ req shreq img,
      parseBboxRequest ⟨[some 10, some 20, some 11, some 21], "ndvi"⟩ = some req ∧
      plannedProviderRequest req = Except.ok shreq ∧
      (fun _ => Except.ok [9] : Provider) shreq = Except.ok img ∧
      encodePNG [9] = encodePNG img :=
  get_image_persists_last_image (fun _ => Except.ok [9]) ⟨[]⟩ _
    ⟨[some 10, some 20, some 11, some 21], "ndvi"⟩ (encodePNG [9]) "image/png" rfl

/-- C5: any failure raised inside the `try` block of `get_image` — provider
or network failure, malformed bbox accepted by the request model, any raise
during request construction — is caught by the single catch-all and answered
as HTTP 500 whose detail is exactly the stringified failure message, with the
state untouched (no retry, no local recovery). -/
theorem render_failure_uniform_500 (provider : Provider) (st : ServerState)
    (raw : RawRequest) (req : BboxRequest) (e : String)
    (hparse : parseBboxRequest raw = some req)
    (hfail : getImageTry provider st req = Except.error e) :
    post_get_image provider st raw = (st, GetImageResponse.httpError 500 e) :=
  handler_error_500 provider st raw req e hparse hfail

theorem render_failure_uniform_500_witness :
    post_get_image (fun _ => Except.error "network down") ⟨[]⟩
      ⟨[some 0, some 1, some 2, some 3], "ndvi"⟩ =
      (⟨[]⟩, GetImageResponse.httpError 500 "network down") :=
  render_failure_uniform_500 (fun _ => Except.error "network down") ⟨[]⟩
    ⟨[some 0, some 1, some 2, some 3], "ndvi"⟩ ⟨[0, 1, 2, 3], LayerType.ndvi⟩
    "network down" rfl rfl

theorem parseBboxRequest_some (raw : RawRequest) (req : BboxRequest)
    (h : parseBboxRequest raw = some req) :
    coerceFloats raw.bbox = some req.bbox ∧
    parseLayerType raw.layer_type = some req.layer_type := by
  unfold parseBboxRequest at h
  split at h
  · exact Option.noConfusion h
  next bbox hc =>
    split at h
    · exact Option.noConfusion h
    next lt hlt =>
      injection h with h
      subst h
      exact ⟨hc, hlt⟩

/-- C6: for every validated request whose bbox has the four entries the
provider constructor accepts, the provider request built by `get_image`
carries exactly the fixed time window 2025-04-01..2025-09-30, the 512×512
output size, the PNG output format, the Sentinel-2 L1C collection, and the
script that the process-wide `EVALSCRIPTS` table maps the request's
layer type to. -/
theorem provider_request_fixed_parameters (req : BboxRequest) (h : req.bbox.length = 4) :
    ∃ s, plannedProviderRequest req = Except.ok s ∧
      s.time_interval = ("2025-04-01", "2025-09-30") ∧
      s.size = (512, 512) ∧
      s.response_format = "PNG" ∧
      s.data_collection = "SENTINEL2_L1C" ∧
      EVALSCRIPTS.lookup req.layer_type.toString = some s.evalscript := by
  obtain ⟨bbox, lt⟩ := req
  cases bbox with
  | nil => simp at h
  | cons a t =>
    cases t with
    | nil => simp at h
    | cons b t =>
      cases t with
      | nil => simp at h
      | cons c t =>
        cases t with
        | nil => simp at h
        | cons d t =>
          cases t with
          | cons x t => simp at h
          | nil =>
            cases lt with
            | true_color => exact ⟨_, rfl, rfl, rfl, rfl, rfl, rfl⟩
            | ndvi => exact ⟨_, rfl, rfl, rfl, rfl, rfl, rfl⟩

theorem provider_request_fixed_parameters_witness :
    ∃ s, plannedProviderRequest ⟨[0, 0, 1, 1], LayerType.ndvi⟩ = Except.ok s ∧
      s.time_interval = ("2025-04-01", "2025-09-30") ∧
      s.size = (512, 512) ∧
      s.response_format = "PNG" ∧
      s.data_collection = "SENTINEL2_L1C" ∧
      EVALSCRIPTS.lookup (LayerType.toString LayerType.ndvi) = some s.evalscript :=
  provider_request_fixed_parameters ⟨[0, 0, 1, 1], LayerType.ndvi⟩ rfl

/-- A credential read from the environment is unusable when the variable is
absent or set to the empty string (both falsy in the startup check). -/
def credMissing (o : Option String) : Prop := o = none ∨ o = some ""

theorem strTruthy_eq_false (o : Option String) (h : credMissing o) : strTruthy o = false := by
  cases h with
  | inl h => rw [h]; rfl
  | inr h => rw [h]; rfl

/-- C7: if either `ClientID` or `ClientSecret` is missing from the
environment or set to the empty string, module-load startup raises the fatal
`ValueError` and the process refuses to start; otherwise startup succeeds and
the config holds exactly those two credentials for the process lifetime. -/
theorem startup_requires_credentials (env : Env) :
    (credMissing (getenv env "ClientID") ∨ credMissing (getenv env "ClientSecret") →
      startup env = Except.error "Пожалуйста, укажите SH_CLIENT_ID и SH_CLIENT_SECRET.") ∧
    (∀ cid cs, getenv env "ClientID" = some cid → cid ≠ "" →
      getenv env "ClientSecret" = some cs → cs ≠ "" →
      startup env = Except.ok ⟨cid, cs⟩) := by
  constructor
  · intro hmiss
    have hcond : (!strTruthy (getenv env "ClientID") ||
        !strTruthy (getenv env "ClientSecret")) = true := by
      cases hmiss with
      | inl h => rw [strTruthy_eq_false _ h]; rfl
      | inr h => rw [strTruthy_eq_false _ h]; simp
    simp only [startup]
    rw [if_pos hcond]
  · intro cid cs h1 hne1 h2 hne2
    simp only [startup]
    rw [h1, h2]
    simp [strTruthy, hne1, hne2]

theorem startup_requires_credentials_witness :
    startup [("ClientID", "id-1"), ("ClientSecret", "secret-1")] =
      Except.ok ⟨"id-1", "secret-1"⟩ :=
  (startup_requires_credentials [("ClientID", "id-1"), ("ClientSecret", "secret-1")]).2
    "id-1" "secret-1" rfl (by decide) rfl (by decide)

/-- C8 (counterexample): a body whose bbox holds an entry that fails float
coercion (e.g. the string "abc") is rejected by pydantic with status 422 —
the response is an error, but its status is neither 500 nor 400, refuting
the claim as stated. -/
theorem malformed_bbox_not_500_or_400 :
    ¬ (((post_get_image (fun _ => Except.error "err") ⟨[]⟩
           ⟨[none], "true_color"⟩).2.status = 500) ∨
       ((post_get_image (fun _ => Except.error "err") ⟨[]⟩
           ⟨[none], "true_color"⟩).2.status = 400)) := by
  decide

/-- C8 (amended): a malformed bbox never yields a 200 success — an entry
failing float coercion is rejected by validation with 422, and a wrong-arity
bbox that passes the request model is rejected by the provider `BBox`
constructor inside the handler, surfacing as a 500. -/
theorem malformed_bbox_error_never_200 (provider : Provider) (st : ServerState)
    (raw : RawRequest) (hbad : none ∈ raw.bbox ∨ raw.bbox.length ≠ 4) :
    ((post_get_image provider st raw).2.status = 422 ∨
     (post_get_image provider st raw).2.status = 500) ∧
    (post_get_image provider st raw).2.status ≠ 200 := by
  have key : (post_get_image provider st raw).2.status = 422 ∨
      (post_get_image provider st raw).2.status = 500 := by
    cases hbad with
    | inl hmem =>
      left
      have hc := coerceFloats_none_of_mem raw.bbox hmem
      have hp : parseBboxRequest raw = none := by
        unfold parseBboxRequest
        rw [hc]
      unfold post_get_image
      rw [hp]
      rfl
    | inr hlen =>
      cases hp : parseBboxRequest raw with
      | none =>
        left
        unfold post_get_image
        rw [hp]
        rfl
      | some req =>
        right
        have hreq : req.bbox.length ≠ 4 := by
          have hc := (parseBboxRequest_some raw req hp).1
          rw [coerceFloats_length raw.bbox req.bbox hc]
          exact hlen
        have hbb := mkBBox_of_length_ne_four req.bbox hreq
        have hplanE : plannedProviderRequest req =
            Except.error "Expected a valid list or tuple representation of a bbox" := by
          unfold plannedProviderRequest
          rw [hbb]
        have hpost := handler_error_500 provider st raw req _ hp
          (getImageTry_of_planned_error provider st req _ hplanE)
        rw [hpost]
        rfl
  refine ⟨key, ?_⟩
  cases key with
  | inl h => rw [h]; decide
  | inr h => rw [h]; decide

theorem malformed_bbox_error_never_200_witness :
    ((post_get_image (fun _ => Except.error "err2") ⟨[]⟩
        ⟨[some 1, some 2, some 3], "ndvi"⟩).2.status = 422 ∨
     (post_get_image (fun _ => Except.error "err2") ⟨[]⟩
        ⟨[some 1, some 2, some 3], "ndvi"⟩).2.status = 500) ∧
    (post_get_image (fun _ => Except.error "err2") ⟨[]⟩
       ⟨[some 1, some 2, some 3], "ndvi"⟩).2.status ≠ 200 :=
  malformed_bbox_error_never_200 (fun _ => Except.error "err2") ⟨[]⟩
    ⟨[some 1, some 2, some 3], "ndvi"⟩ (Or.inr (by decide))

/-- C9: once a body has passed `BboxRequest` validation and the handler body
runs, the response status is 200 or 500 and never 400: every exception raised
inside the `try` block — including the handler's own
`HTTPException(400, ...)` for a falsy script lookup — is caught by the
catch-all and re-raised as a 500. -/
theorem validated_request_status_200_or_500 (provider : Provider) (st : ServerState)
    (req : BboxRequest) :
    ((get_image provider st req).2.status = 200 ∨
     (get_image provider st req).2.status = 500) ∧
    (get_image provider st req).2.status ≠ 400 := by
  cases ht : getImageTry provider st req with
  | error e =>
    have hg : get_image provider st req = (st, GetImageResponse.httpError 500 e) := by
      unfold get_image
      rw [ht]
    rw [hg]
    exact ⟨Or.inr rfl, show (500 : Nat) ≠ 400 by decide⟩
  | ok result =>
    obtain ⟨shreq, img, hplan, hprov, hout⟩ := getImageTry_ok provider st req result ht
    have hg : get_image provider st req = result := by
      unfold get_image
      rw [ht]
    rw [hg, hout]
    exact ⟨Or.inl rfl, show (200 : Nat) ≠ 400 by decide⟩

/-- C10: `download_image` is read-only — it returns the process state
unchanged — and every attachment it serves uses the fixed path
`last_image.png`, the download filename `sentinel_snapshot.png`, the content
type `image/png`, and the current contents of the last-image file. -/
theorem download_image_read_only (st : ServerState) :
    (download_image st).1 = st ∧
    (∀ p c f m, (download_image st).2 = DownloadResponse.fileAttachment p c f m →
      p = "last_image.png" ∧ f = "sentinel_snapshot.png" ∧ m = "image/png" ∧
      readFile st "last_image.png" = some c) := by
  constructor
  · simp only [download_image]
    split <;> rfl
  · intro p c f m hc
    simp only [download_image] at hc
    split at hc
    next content hr =>
      injection hc with hp hcnt hf hm
      exact ⟨hp.symm, hf.symm, hm.symm, by rw [hr, hcnt]⟩
    next hr => exact DownloadResponse.noConfusion hc

theorem download_image_read_only_witness :
    (download_image ⟨[("last_image.png", [1, 2])]⟩).1 = ⟨[("last_image.png", [1, 2])]⟩ ∧
    ("last_image.png" = "last_image.png" ∧ "sentinel_snapshot.png" = "sentinel_snapshot.png" ∧
      "image/png" = "image/png" ∧
      readFile ⟨[("last_image.png", [1, 2])]⟩ "last_image.png" = some [1, 2]) :=
  ⟨(download_image_read_only ⟨[("last_image.png", [1, 2])]⟩).1,
   (download_image_read_only ⟨[("last_image.png", [1, 2])]⟩).2
     "last_image.png" [1, 2] "sentinel_snapshot.png" "image/png" rfl⟩
